import Mathlib

/-!
Verification development for the vtai chat application (src/vtai/app.py).

The Python source is shallowly embedded: the session state kept in
cl.user_session becomes an explicit record, each handler becomes a pure
function that receives the result of its remote-service call as an
Except value (ok = normal return, error = the exception the service
raised), and the Chainlit output sink becomes an explicit list of sent
messages.  Python list aliasing matters in one place: the history is
read back with the expression get("message_history") or [], so a stored
None or empty list is replaced by a fresh list and an append to that
fresh list is lost; both cases are modelled by the empty list.
-/

namespace VTai

/-- One entry of the conversation history: the Python dict
with keys "role" and "content" built in update_messages_history_with_context. -/
structure Message where
  role : String
  content : String
deriving DecidableEq, Repr

/-- Python truthiness of an optional boolean setting value: None and False
are falsy, True is truthy. -/
def optTruthy : Option Bool → Bool
  | some b => b
  | none => false

/-- Embedding of update_messages_history_with_context (app.py lines 521 to 526).
Returns the stored history unchanged when the role or the content is empty.
Otherwise the expression get("message_history") or [] aliases the stored
list only when that list is non-empty, so the in-place append is observable
exactly in that case; on an empty (or missing) stored history the append
goes to a fresh list and is dropped. -/
def update_messages_history_with_context (stored : List Message)
    (context : String) (role : String) : List Message :=
  if role.length = 0 ∨ context.length = 0 then stored
  else if stored.isEmpty then stored
  else stored ++ [⟨role, context⟩]

/-- Embedding of update_user_messages_history_with_context (app.py line 513). -/
def update_user_messages_history_with_context (stored : List Message)
    (context : String) : List Message :=
  update_messages_history_with_context stored context "user"

/-- Embedding of update_assistant_messages_history_with_context (app.py line 517). -/
def update_assistant_messages_history_with_context (stored : List Message)
    (context : String) : List Message :=
  update_messages_history_with_context stored context "assistant"

/-- The session settings dictionary stored by Chainlit under "chat_settings",
with one field per widget id registered in build_settings (app.py lines
173 to 228).  Field names follow the conf.SETTINGS_* keys. -/
structure ChatSettings where
  chat_model : String
  vision_model : String
  enable_tts_response : Bool
  tts_model : String
  tts_voice_preset_model : String
  use_dynamic_conversation_routing : Bool
  trimmed_messages : Bool
deriving DecidableEq, Repr

/-- Embedding of get_settings (app.py lines 460 to 468) specialised to each
settings key: returns none when no settings dictionary is stored (the
Python function returns None), otherwise the value under the key. -/
def get_settings_chat_model (settings : Option ChatSettings) : Option String :=
  settings.map (fun s => s.chat_model)

/-- Embedding of get_settings for the vision-model key. -/
def get_settings_vision_model (settings : Option ChatSettings) : Option String :=
  settings.map (fun s => s.vision_model)

/-- Embedding of get_settings for the enable-TTS key. -/
def get_settings_enable_tts (settings : Option ChatSettings) : Option Bool :=
  settings.map (fun s => s.enable_tts_response)

/-- Embedding of get_settings for the TTS-model key. -/
def get_settings_tts_model (settings : Option ChatSettings) : Option String :=
  settings.map (fun s => s.tts_model)

/-- Embedding of get_settings for the TTS-voice key. -/
def get_settings_tts_voice (settings : Option ChatSettings) : Option String :=
  settings.map (fun s => s.tts_voice_preset_model)

/-- Embedding of get_settings for the dynamic-routing key. -/
def get_settings_dynamic_routing (settings : Option ChatSettings) : Option Bool :=
  settings.map (fun s => s.use_dynamic_conversation_routing)

/-- Embedding of get_settings for the trim-messages key. -/
def get_settings_trimmed (settings : Option ChatSettings) : Option Bool :=
  settings.map (fun s => s.trimmed_messages)

/-- Python str() of an optional string, as used when a possibly-None
settings value is interpolated into an f-string. -/
def optStr : Option String → String
  | some s => s
  | none => "None"

/-- Modelled from the spec: constants.SemanticRouterType.IMAGE_GENERATION
(constants.py is not under src/); the route-name value is an arbitrary
fixed string, distinct from the other route name. -/
def SemanticRouterType.IMAGE_GENERATION : String := "image-generation"

/-- Modelled from the spec: constants.SemanticRouterType.VISION_IMAGE_PROCESSING
(constants.py is not under src/); an arbitrary fixed string distinct from
the image-generation route name. -/
def SemanticRouterType.VISION_IMAGE_PROCESSING : String := "vision-image-processing"

/-- Modelled from the spec: llms_config.DEFAULT_VISION_MODEL (llms_config.py
is not under src/); the hardcoded default vision model identifier. -/
def DEFAULT_VISION_MODEL : String := "default-vision-model"

/-- Modelled from the spec: llms_config.DEFAULT_IMAGE_GEN_MODEL (llms_config.py
is not under src/); the fixed default image generation model identifier. -/
def DEFAULT_IMAGE_GEN_MODEL : String := "default-image-gen-model"

/-- Modelled from the spec: llms_config.DEFAULT_WHISPER_MODEL (llms_config.py
is not under src/); the fixed default transcription model identifier. -/
def DEFAULT_WHISPER_MODEL : String := "default-whisper-model"

/-- The seed system message set by config_chat_session (app.py lines 161 to 164). -/
def seed_system_message : Message :=
  ⟨"system", "You are a helpful assistant who tries their best to answer questions: "⟩

/-- The greeting sent and appended by config_chat_session (app.py line 168). -/
def session_greeting : String :=
  "Hello! I\x27m here to assist you. Please don\x27t hesitate to ask me anything you\x27d like to know."

/-- Embedding of config_chat_session (app.py lines 155 to 170): the history
is reset to the single seed system message, the greeting is sent, and the
greeting is appended as an assistant entry. -/
def config_chat_session_history : List Message :=
  update_assistant_messages_history_with_context [seed_system_message] session_greeting

/-- A Python exception as observed by the except blocks: its type name and
its message. -/
structure ExcInfo where
  excType : String
  excMsg : String
deriving DecidableEq, Repr

/-- The text sent by handle_exception_error (app.py lines 141 to 152). -/
def exceptionErrorMessage (e : ExcInfo) : String :=
  "Something went wrong, please try again. Error type: " ++ e.excType
    ++ ", Error: " ++ e.excMsg

/-- Result of a handler that catches its own exceptions: the stored history
after the call, the contents of the messages sent to the output sink, and
the payload of the attached speak-response action, when one is attached. -/
structure HandlerResult where
  history : List Message
  sent : List String
  speakAction : Option String
deriving DecidableEq, Repr

/-- Embedding of handle_trigger_async_chat (app.py lines 102 to 138).  The
whole body sits in a try block: streamResult is ok with the assembled
streamed content on success, error with the raised exception otherwise.
On success the content is appended to the history as an assistant entry and
a speak action is attached when the TTS setting is truthy; on failure
handle_exception_error sends the generic failure text and the history is
untouched. -/
def handle_trigger_async_chat (hist : List Message) (enableTTS : Option Bool)
    (streamResult : Except ExcInfo String) : HandlerResult :=
  match streamResult with
  | Except.error e => ⟨hist, [exceptionErrorMessage e], none⟩
  | Except.ok content =>
      ⟨update_assistant_messages_history_with_context hist content,
       [content],
       if optTruthy enableTTS then some content else none⟩

/-- The ok payload of the image generation service: the fields read from
image_response["data"][0] in app.py lines 248 to 250. -/
structure ImageGenData where
  url : String
  revised_prompt : String
deriving DecidableEq, Repr

/-- The preamble message sent by handle_trigger_async_image_gen before the
service call (app.py lines 237 to 241). -/
def imageGenPreamble : String :=
  "Sure! I\x27ll use the `" ++ DEFAULT_IMAGE_GEN_MODEL
    ++ "` model to create an image based on your description. This might take a moment, please be patient."

/-- Embedding of handle_trigger_async_image_gen (app.py lines 231 to 273).
The preamble is sent before the try block.  On success the revised prompt
is appended to the history as an assistant entry, the image message is
sent and a speak action carrying the revised prompt is attached; on
failure handle_exception_error sends the generic failure text and the
history is untouched. -/
def handle_trigger_async_image_gen (hist : List Message)
    (serviceResult : Except ExcInfo ImageGenData) : HandlerResult :=
  match serviceResult with
  | Except.error e => ⟨hist, [imageGenPreamble, exceptionErrorMessage e], none⟩
  | Except.ok data =>
      ⟨update_assistant_messages_history_with_context hist data.revised_prompt,
       [imageGenPreamble,
        "Here\x27s the image, along with a refined description based on your input:"],
       some data.revised_prompt⟩

/-- Embedding of the vision-model resolution in handle_vision (app.py lines
398 to 402): the hardcoded default when triggered by a local file
attachment, the settings-chosen model otherwise. -/
def resolve_vision_model (settings : Option ChatSettings) (is_local : Bool) :
    Option String :=
  if is_local then some DEFAULT_VISION_MODEL
  else get_settings_vision_model settings

/-- The capability-mismatch notice sent by handle_vision (app.py lines 408
to 410). -/
def visionUnsupportedNotice (vision_model : Option String) : String :=
  "It seems the vision model `" ++ optStr vision_model
    ++ "` doesn\x27t support image processing. Please choose a different model in Settings that offers Vision capabilities."

/-- The progress message sent by handle_vision before the service call
(app.py lines 413 to 418). -/
def visionAnalyzingMessage (vision_model : Option String) : String :=
  "Analyzing the image using the `" ++ optStr vision_model
    ++ "` model... This might take a moment. 🔎"

/-- Result of a completed (non-raising) run of the vision handler. -/
structure VisionResult where
  history : List Message
  sent : List String
  completionCalled : Bool
  speakAction : Option String
deriving DecidableEq, Repr

/-- Embedding of handle_vision (app.py lines 389 to 457).  supports is
litellm.supports_vision; serviceResult is the outcome of the
litellm.acompletion call.  The function body has no try block, so a
service exception propagates to the caller: that case is the error
branch of the returned Except.  When the resolved model lacks vision
support the handler sends the mismatch notice and returns before any
service call; otherwise on success it appends the returned description
as an assistant entry and sends the result message with a speak action. -/
def handle_vision (hist : List Message) (settings : Option ChatSettings)
    (supports : Option String → Bool) (serviceResult : Except ExcInfo String)
    (input_image : String) (prompt : String) (is_local : Bool) :
    Except ExcInfo VisionResult :=
  let vision_model := resolve_vision_model settings is_local
  if supports vision_model = false then
    Except.ok ⟨hist, [visionUnsupportedNotice vision_model], false, none⟩
  else
    match serviceResult with
    | Except.error e => Except.error e
    | Except.ok description =>
        Except.ok
          ⟨update_assistant_messages_history_with_context hist description,
           [visionAnalyzingMessage vision_model, description],
           true,
           some description⟩

/-- Embedding of handle_audio_transcribe (app.py lines 308 to 325).  The
function has no try block, so a transcription-service exception
propagates to the caller (the error branch).  On success the transcript
is appended to the history as an assistant entry and the audio-plus-
transcript message is sent. -/
def handle_audio_transcribe (hist : List Message)
    (transcriptionResult : Except ExcInfo String) :
    Except ExcInfo (List Message × List String) :=
  match transcriptionResult with
  | Except.error e => Except.error e
  | Except.ok text =>
      Except.ok (update_assistant_messages_history_with_context hist text, [text])

/-- Result of the TTS handler: the history afterwards, whether the
speech-synthesis service was called (and hence an audio artifact written),
and the messages sent. -/
structure TTSResult where
  history : List Message
  synthesisCalled : Bool
  sent : List String
deriving DecidableEq, Repr

/-- The notice sent together with the TTS audio (app.py lines 501 to 508). -/
def ttsNotice (model voice : Option String) : String :=
  "You\x27re hearing an AI voice generated by OpenAI\x27s " ++ optStr model
    ++ " model, using the " ++ optStr voice
    ++ " style.  You can customize this in Settings if you\x27d like!"

/-- Embedding of handle_tts_response (app.py lines 481 to 510).  The first
guard tests the setting with the Python operator is False, so only a
stored False value returns early (None falls through); the second guard
returns early on empty text.  Otherwise the speech service is called, the
audio message is sent and the spoken text is appended as an assistant
entry. -/
def handle_tts_response (hist : List Message) (settings : Option ChatSettings)
    (context : String) : TTSResult :=
  if get_settings_enable_tts settings = some false then ⟨hist, false, []⟩
  else if context.length = 0 then ⟨hist, false, []⟩
  else
    ⟨update_assistant_messages_history_with_context hist context,
     true,
     [ttsNotice (get_settings_tts_model settings) (get_settings_tts_voice settings)]⟩

/-- Dispatch events observable during one turn: which collaborators are
consulted and which capability handler runs, in order.  The vision event
records the model the handler resolves and the is_local flag it is given. -/
inductive Event where
  | routerConsulted (query : String)
  | chatInvoked (model : Option String)
  | imageGenInvoked (query : String)
  | visionInvoked (model : Option String) (is_local : Bool)
  | transcriptionInvoked (path : String)
deriving DecidableEq, Repr

/-- A file element of an inbound Chainlit message: its path and MIME type
as read in handle_files_attachment (app.py lines 290 to 292). -/
structure Attachment where
  path : String
  mime : String
deriving DecidableEq, Repr

/-- Whether the first character list is a leading segment of the second. -/
def charsStartWith : List Char → List Char → Bool
  | [], _ => true
  | _ :: _, [] => false
  | p :: ps, c :: cs => p = c && charsStartWith ps cs

/-- Whether the pattern occurs somewhere in the haystack character list. -/
def charsContains : List Char → List Char → Bool
  | [], p => p.isEmpty
  | c :: cs, p => charsStartWith p (c :: cs) || charsContains cs p

/-- Python substring containment (the expression "needle in haystack") on
strings. -/
def strContains (haystack pattern : String) : Bool :=
  charsContains haystack.data pattern.data

/-- Events of the route dispatch in handle_dynamic_conversation_routing_chat
(app.py lines 349 to 386), after the route name has been obtained:
IMAGE_GENERATION runs the image handler; VISION_IMAGE_PROCESSING runs the
vision handler on the first extracted url when there is one and otherwise
falls back to chat; every other name falls through to chat. -/
def routingEvents (urlsOf : String → List String)
    (settings : Option ChatSettings) (route_choice_name : String)
    (query : String) : List Event :=
  if route_choice_name = SemanticRouterType.IMAGE_GENERATION then
    [Event.imageGenInvoked query]
  else if route_choice_name = SemanticRouterType.VISION_IMAGE_PROCESSING then
    match urlsOf query with
    | [] => [Event.chatInvoked (get_settings_chat_model settings)]
    | _ :: _ => [Event.visionInvoked (get_settings_vision_model settings) false]
  else
    [Event.chatInvoked (get_settings_chat_model settings)]

/-- Events of handle_conversation (app.py lines 529 to 553): when the
dynamic-routing setting is truthy the route layer classifies the query
(routerConsulted) and the routing dispatch runs; otherwise the chat
handler runs directly.  routeOf and urlsOf stand for the route_layer
classifier and the extract_url utility. -/
def handle_conversation_events (routeOf : String → String)
    (urlsOf : String → List String) (settings : Option ChatSettings)
    (query : String) : List Event :=
  if optTruthy (get_settings_dynamic_routing settings) then
    Event.routerConsulted query ::
      routingEvents urlsOf settings (routeOf query) query
  else
    [Event.chatInvoked (get_settings_chat_model settings)]

/-- Events contributed by one attachment in the loop of
handle_files_attachment (app.py lines 290 to 305): an image MIME type runs
the vision handler on the file path with is_local true (which resolves the
hardcoded default vision model); a text MIME type re-dispatches the file
content as a text conversation; an audio MIME type runs transcription;
any other MIME type is skipped.  readFile stands for the file read. -/
def handle_file_events (readFile : String → String) (routeOf : String → String)
    (urlsOf : String → List String) (settings : Option ChatSettings)
    (f : Attachment) : List Event :=
  if strContains f.mime "image" then
    [Event.visionInvoked (some DEFAULT_VISION_MODEL) true]
  else if strContains f.mime "text" then
    handle_conversation_events routeOf urlsOf settings (readFile f.path)
  else if strContains f.mime "audio" then
    [Event.transcriptionInvoked f.path]
  else []

/-- Events of handle_files_attachment (app.py lines 276 to 305): each
attachment is processed in order. -/
def handle_files_attachment_events (readFile : String → String)
    (routeOf : String → String) (urlsOf : String → List String)
    (settings : Option ChatSettings) (files : List Attachment) : List Event :=
  files.flatMap (handle_file_events readFile routeOf urlsOf settings)

/-- Events of on_message (app.py lines 63 to 76): a message carrying file
elements goes to the attachment branch, a plain text message goes to the
conversation branch. -/
def on_message_events (readFile : String → String) (routeOf : String → String)
    (urlsOf : String → List String) (settings : Option ChatSettings)
    (elements : List Attachment) (content : String) : List Event :=
  if elements.length > 0 then
    handle_files_attachment_events readFile routeOf urlsOf settings elements
  else
    handle_conversation_events routeOf urlsOf settings content

/-- Total token cost of a message list under a cost function. -/
def totalCost (cost : Message → Nat) (msgs : List Message) : Nat :=
  (msgs.map cost).sum

/-- Modelled from the spec: the core loop of litellm.utils.trim_messages
(the litellm library is external, not under src/).  Following the words
"drop oldest user/assistant pairs first", the oldest pair is dropped while
the running total (the cost of the messages kept so far, sysCost, plus the
cost of the remaining tail) exceeds the budget. -/
def dropPairsUntilFits (cost : Message → Nat) (budget sysCost : Nat) :
    List Message → List Message
  | [] => []
  | [a] => if sysCost + cost a ≤ budget then [a] else []
  | a :: b :: rest =>
      if sysCost + totalCost cost (a :: b :: rest) ≤ budget then a :: b :: rest
      else dropPairsUntilFits cost budget sysCost rest

/-- Modelled from the spec: litellm.utils.trim_messages as called at app.py
line 340 (the litellm library is external, not under src/).  Per the
spec, trimming condenses the history to fit the token budget while it
"must preserve the leading system message and drop oldest user/assistant
pairs first". -/
def trim_messages (cost : Message → Nat) (budget : Nat)
    (msgs : List Message) : List Message :=
  match msgs with
  | [] => []
  | first :: rest =>
      if first.role = "system" then
        first :: dropPairsUntilFits cost budget (cost first) rest
      else
        dropPairsUntilFits cost budget 0 (first :: rest)

/-- The message list passed to the chat completion service by a routed chat
turn (app.py lines 338 to 340): the history itself, condensed by the
trimming pass when the trim setting is truthy.  The stored history is not
written by this computation. -/
def routed_chat_messages_sent (cost : Message → Nat) (budget : Nat)
    (settings : Option ChatSettings) (hist : List Message) : List Message :=
  if optTruthy (get_settings_trimmed settings) then
    trim_messages cost budget hist
  else hist

/-- The per-session state kept in cl.user_session: the stored message
history (the empty list also stands for an unset key, the two being
indistinguishable through the expression get("message_history") or []) and
the settings dictionary stored under "chat_settings". -/
structure SessionState where
  message_history : List Message
  chat_settings : Option ChatSettings
deriving Repr

/-- One observable operation on the session after initialization.  Each
handler operation carries the outcome of its remote-service call as data
(ok or raised exception), so the state transition covers both the success
and the failure path of that handler. -/
inductive Operation where
  | settingsUpdate (s : ChatSettings)
  | userAppend (query : String)
  | chatTurn (streamResult : Except ExcInfo String)
  | imageGenTurn (serviceResult : Except ExcInfo ImageGenData)
  | visionTurn (supports : Option String → Bool)
      (serviceResult : Except ExcInfo String)
      (input_image : String) (prompt : String) (is_local : Bool)
  | transcribeTurn (transcriptionResult : Except ExcInfo String)
  | ttsAction (context : String)
  | appendOp (role : String) (context : String)

/-- The state transition of one operation.  Settings updates replace the
settings dictionary and leave the history alone; each handler operation
updates the history exactly as its embedded handler does, where a
propagated exception (vision, transcription) aborts the turn with the
state unchanged. -/
def applyOp (st : SessionState) (op : Operation) : SessionState :=
  match op with
  | Operation.settingsUpdate s => { st with chat_settings := some s }
  | Operation.userAppend q =>
      { st with message_history :=
          update_user_messages_history_with_context st.message_history q }
  | Operation.chatTurn r =>
      { st with message_history :=
          (handle_trigger_async_chat st.message_history
            (get_settings_enable_tts st.chat_settings) r).history }
  | Operation.imageGenTurn r =>
      { st with message_history :=
          (handle_trigger_async_image_gen st.message_history r).history }
  | Operation.visionTurn supports r input_image prompt is_local =>
      match handle_vision st.message_history st.chat_settings supports r
          input_image prompt is_local with
      | Except.error _ => st
      | Except.ok vr => { st with message_history := vr.history }
  | Operation.transcribeTurn r =>
      match handle_audio_transcribe st.message_history r with
      | Except.error _ => st
      | Except.ok (h, _) => { st with message_history := h }
  | Operation.ttsAction c =>
      { st with message_history :=
          (handle_tts_response st.message_history st.chat_settings c).history }
  | Operation.appendOp role context =>
      { st with message_history :=
          update_messages_history_with_context st.message_history context role }

/-- The session state right after start_chat has run config_chat_session. -/
def initSession (settings : Option ChatSettings) : SessionState :=
  ⟨config_chat_session_history, settings⟩

/-- Running a sequence of operations from a state. -/
def runOps (st : SessionState) (ops : List Operation) : SessionState :=
  ops.foldl applyOp st

/-! Helper lemmas shared by the claim theorems. -/

theorem update_history_extends (hist : List Message) (context role : String) :
    ∃ t, update_messages_history_with_context hist context role = hist ++ t := by
  unfold update_messages_history_with_context
  by_cases h1 : role.length = 0 ∨ context.length = 0
  · exact ⟨[], by simp [h1]⟩
  · by_cases h2 : hist.isEmpty
    · exact ⟨[], by simp [h1, h2]⟩
    · exact ⟨[⟨role, context⟩], by simp [h1, h2]⟩

theorem update_history_pre (hist : List Message) (context role : String) :
    hist <+: update_messages_history_with_context hist context role := by
  obtain ⟨t, ht⟩ := update_history_extends hist context role
  exact ⟨t, ht.symm⟩

theorem head_mono {l l' : List Message} (h : l <+: l') {m : Message}
    (hh : l.head? = some m) : l'.head? = some m := by
  obtain ⟨t, rfl⟩ := h
  cases l with
  | nil => simp at hh
  | cons a u => simpa using hh

theorem handle_vision_ok_history (hist : List Message)
    (settings : Option ChatSettings) (supports : Option String → Bool)
    (r : Except ExcInfo String) (i p : String) (loc : Bool) (vr : VisionResult)
    (h : handle_vision hist settings supports r i p loc = Except.ok vr) :
    hist <+: vr.history := by
  unfold handle_vision at h
  by_cases hs : supports (resolve_vision_model settings loc) = false
  · rw [if_pos hs] at h
    simp only [Except.ok.injEq] at h
    subst h
    exact ⟨[], by simp⟩
  · rw [if_neg hs] at h
    cases r with
    | error e => simp at h
    | ok description =>
        simp only [Except.ok.injEq] at h
        subst h
        exact update_history_pre hist description "assistant"

theorem handle_audio_transcribe_ok_history (hist : List Message)
    (r : Except ExcInfo String) (h' : List Message) (sent : List String)
    (h : handle_audio_transcribe hist r = Except.ok (h', sent)) :
    hist <+: h' := by
  cases r with
  | error e => simp [handle_audio_transcribe] at h
  | ok text =>
      simp only [handle_audio_transcribe, Except.ok.injEq, Prod.mk.injEq] at h
      rw [← h.1]
      exact update_history_pre hist text "assistant"

theorem applyOp_history_extends (st : SessionState) (op : Operation) :
    st.message_history <+: (applyOp st op).message_history := by
  cases op with
  | settingsUpdate s => exact ⟨[], by simp [applyOp]⟩
  | userAppend q => exact update_history_pre _ _ _
  | chatTurn r =>
      cases r with
      | error e => exact ⟨[], by simp [applyOp, handle_trigger_async_chat]⟩
      | ok content => exact update_history_pre _ _ _
  | imageGenTurn r =>
      cases r with
      | error e => exact ⟨[], by simp [applyOp, handle_trigger_async_image_gen]⟩
      | ok data => exact update_history_pre _ _ _
  | visionTurn supports r i p loc =>
      show st.message_history <+:
        (match handle_vision st.message_history st.chat_settings supports r i p loc with
          | Except.error _ => st
          | Except.ok vr => { st with message_history := vr.history }).message_history
      cases hv : handle_vision st.message_history st.chat_settings supports r i p loc with
      | error e => exact ⟨[], by simp⟩
      | ok vr => exact handle_vision_ok_history _ _ _ _ _ _ _ _ hv
  | transcribeTurn r =>
      show st.message_history <+:
        (match handle_audio_transcribe st.message_history r with
          | Except.error _ => st
          | Except.ok (h, _) => { st with message_history := h }).message_history
      cases hv : handle_audio_transcribe st.message_history r with
      | error e => exact ⟨[], by simp⟩
      | ok pr =>
          cases pr with
          | mk h' sent => exact handle_audio_transcribe_ok_history _ _ _ _ hv
  | ttsAction c =>
      show st.message_history <+:
        (handle_tts_response st.message_history st.chat_settings c).history
      unfold handle_tts_response
      by_cases h1 : get_settings_enable_tts st.chat_settings = some false
      · rw [if_pos h1]
      · rw [if_neg h1]
        by_cases h2 : c.length = 0
        · rw [if_pos h2]
        · rw [if_neg h2]
          exact update_history_pre _ _ _
  | appendOp role context => exact update_history_pre _ _ _

theorem runOps_head_invariant (ops : List Operation) :
    ∀ st : SessionState, st.message_history.head? = some seed_system_message →
      (runOps st ops).message_history.head? = some seed_system_message := by
  induction ops with
  | nil => intro st h; exact h
  | cons op rest ih =>
      intro st h
      exact ih _ (head_mono (applyOp_history_extends st op) h)

theorem dropPairsUntilFits_suffix (cost : Message → Nat) (budget sysCost : Nat) :
    ∀ l : List Message, dropPairsUntilFits cost budget sysCost l <:+ l
  | [] => by simp [dropPairsUntilFits]
  | [a] => by
      unfold dropPairsUntilFits
      split
      · exact ⟨[], rfl⟩
      · exact ⟨[a], rfl⟩
  | a :: b :: rest => by
      unfold dropPairsUntilFits
      split
      · exact ⟨[], rfl⟩
      · obtain ⟨t, ht⟩ := dropPairsUntilFits_suffix cost budget sysCost rest
        exact ⟨a :: b :: t, by rw [List.cons_append, List.cons_append, ht]⟩

theorem trim_messages_sublist (cost : Message → Nat) (budget : Nat)
    (msgs : List Message) : List.Sublist (trim_messages cost budget msgs) msgs := by
  cases msgs with
  | nil => exact List.Sublist.refl _
  | cons first rest =>
      by_cases h : first.role = "system"
      · simp only [trim_messages, if_pos h]
        exact List.Sublist.cons₂ first
          (dropPairsUntilFits_suffix cost budget (cost first) rest).sublist
      · simp only [trim_messages, if_neg h]
        exact (dropPairsUntilFits_suffix cost budget 0 (first :: rest)).sublist

theorem string_length_eq_zero_iff (s : String) : s.length = 0 ↔ s = "" := by
  constructor
  · intro h
    cases s with
    | mk data =>
        cases data with
        | nil => rfl
        | cons c cs => simp [String.length] at h
  · intro h
    subst h
    rfl

/-! Claim theorems. -/

/-- Claim C1: after initialization the stored conversation history is
non-empty and its first entry is the seed system message, and this is
preserved by any sequence of subsequent operations — handler appends,
settings updates, TTS actions and trimming-enabled turns. -/
theorem history_first_entry_is_seed_system (settings : Option ChatSettings)
    (ops : List Operation) :
    (runOps (initSession settings) ops).message_history ≠ [] ∧
      (runOps (initSession settings) ops).message_history.head? =
        some seed_system_message := by
  have h0 : (initSession settings).message_history.head? =
      some seed_system_message := by
    show config_chat_session_history.head? = some seed_system_message
    decide
  have h := runOps_head_invariant ops (initSession settings) h0
  refine ⟨?_, h⟩
  intro hnil
  rw [hnil] at h
  simp at h

/-- Claim C2 counterexample: an exception raised by the vision completion
service is not caught at the handler boundary — handle_vision has no try
block, so the error propagates to the caller and no generic failure
message is sent. -/
theorem vision_service_error_not_caught :
    handle_vision [seed_system_message] none (fun _ => true)
        (Except.error ⟨"APIError", "connection reset"⟩)
        "http://example.com/cat.png" "describe" false
      = Except.error ⟨"APIError", "connection reset"⟩ := by
  simp [handle_vision]

/-- Claim C2 (amended): when the remote service raises, the chat-completion
and image-generation handlers catch the exception and send the generic
failure message with the exception type and message; the vision and
transcription handlers have no try block and the exception propagates
uncaught.  In all four cases the stored history is left exactly as it was
before the call: no assistant entry is appended on failure. -/
theorem remote_failure_handler_behaviour (hist : List Message)
    (enableTTS : Option Bool) (settings : Option ChatSettings)
    (supports : Option String → Bool) (e : ExcInfo)
    (input_image prompt : String) (is_local : Bool)
    (hsup : supports (resolve_vision_model settings is_local) = true) :
    handle_trigger_async_chat hist enableTTS (Except.error e)
      = ⟨hist, [exceptionErrorMessage e], none⟩ ∧
    handle_trigger_async_image_gen hist (Except.error e)
      = ⟨hist, [imageGenPreamble, exceptionErrorMessage e], none⟩ ∧
    handle_vision hist settings supports (Except.error e) input_image prompt
        is_local
      = Except.error e ∧
    handle_audio_transcribe hist (Except.error e) = Except.error e := by
  refine ⟨rfl, rfl, ?_, rfl⟩
  simp [handle_vision, hsup]

theorem remote_failure_handler_behaviour_witness :
    handle_trigger_async_chat [seed_system_message] none
        (Except.error ⟨"Timeout", "timed out"⟩)
      = ⟨[seed_system_message], [exceptionErrorMessage ⟨"Timeout", "timed out"⟩],
         none⟩ ∧
    handle_audio_transcribe [seed_system_message]
        (Except.error ⟨"Timeout", "timed out"⟩)
      = Except.error ⟨"Timeout", "timed out"⟩ := by
  have h := remote_failure_handler_behaviour [seed_system_message] none none
    (fun _ => true) ⟨"Timeout", "timed out"⟩ "img" "p" false rfl
  exact ⟨h.1, h.2.2.2⟩

/-- Claim C3 counterexample: a non-empty role string outside the recognized
set {system, user, assistant} is appended rather than ignored — the append
operation checks only for emptiness. -/
theorem append_unrecognized_role_not_noop :
    update_messages_history_with_context [seed_system_message] "hello" "bogus"
      = [seed_system_message, ⟨"bogus", "hello"⟩] := by
  decide

/-- Claim C3 (amended): on the non-empty histories that occur after
initialization, the append operation is a no-op exactly when the role or
the content is the empty string — no recognized-role check is made, so any
non-empty role string is accepted — and for non-empty role and content
it appends exactly one message with that role and content. -/
theorem append_noop_characterization (hist : List Message)
    (role context : String) (hne : hist ≠ []) :
    (update_messages_history_with_context hist context role = hist ↔
      role = "" ∨ context = "") ∧
    (role ≠ "" → context ≠ "" →
      update_messages_history_with_context hist context role
        = hist ++ [⟨role, context⟩]) := by
  cases hist with
  | nil => exact absurd rfl hne
  | cons a l =>
      have hcond : ∀ r c : String,
          (r.length = 0 ∨ c.length = 0) ↔ (r = "" ∨ c = "") := by
        intro r c
        rw [string_length_eq_zero_iff, string_length_eq_zero_iff]
      constructor
      · constructor
        · intro h
          by_contra hc
          push_neg at hc
          have h1 : ¬ (role.length = 0 ∨ context.length = 0) := by
            rw [hcond]
            simp [hc.1, hc.2]
          rw [update_messages_history_with_context, if_neg h1] at h
          simp only [List.isEmpty_cons, if_false, Bool.false_eq_true] at h
          have := congrArg List.length h
          simp at this
        · intro h
          have h1 : role.length = 0 ∨ context.length = 0 := by
            rw [hcond]
            exact h
          rw [update_messages_history_with_context, if_pos h1]
      · intro hr hc
        have h1 : ¬ (role.length = 0 ∨ context.length = 0) := by
          rw [hcond]
          simp [hr, hc]
        rw [update_messages_history_with_context, if_neg h1]
        simp

theorem append_noop_characterization_witness :
    (update_messages_history_with_context [seed_system_message] "hi" "user"
        = [seed_system_message] ↔ "user" = "" ∨ "hi" = "") ∧
    ("user" ≠ "" → "hi" ≠ "" →
      update_messages_history_with_context [seed_system_message] "hi" "user"
        = [seed_system_message] ++ [⟨"user", "hi"⟩]) :=
  append_noop_characterization [seed_system_message] "user" "hi" (by decide)

/-- Claim C4: with dynamic routing enabled, a classifier result that is
DEFAULT, any name outside the closed route set, or VISION_IMAGE_PROCESSING
with no URL extractable from the query, dispatches the turn to the chat
completion handler as a fallback, and neither the image generation handler
nor the vision handler runs. -/
theorem routing_fallback_chat (routeOf : String → String)
    (urlsOf : String → List String) (settings : ChatSettings) (query : String)
    (hdyn : settings.use_dynamic_conversation_routing = true)
    (hfall : (routeOf query ≠ SemanticRouterType.IMAGE_GENERATION ∧
              routeOf query ≠ SemanticRouterType.VISION_IMAGE_PROCESSING) ∨
             (routeOf query = SemanticRouterType.VISION_IMAGE_PROCESSING ∧
              urlsOf query = [])) :
    handle_conversation_events routeOf urlsOf (some settings) query
      = [Event.routerConsulted query,
         Event.chatInvoked (some settings.chat_model)] ∧
    (∀ q, Event.imageGenInvoked q ∉
        handle_conversation_events routeOf urlsOf (some settings) query) ∧
    (∀ m b, Event.visionInvoked m b ∉
        handle_conversation_events routeOf urlsOf (some settings) query) := by
  have hev : handle_conversation_events routeOf urlsOf (some settings) query
      = [Event.routerConsulted query,
         Event.chatInvoked (some settings.chat_model)] := by
    unfold handle_conversation_events routingEvents
    rw [if_pos (by simp [get_settings_dynamic_routing, optTruthy, hdyn])]
    rcases hfall with ⟨h1, h2⟩ | ⟨h1, h2⟩
    · rw [if_neg h1, if_neg h2]
      rfl
    · rw [if_neg (by rw [h1]; decide), if_pos h1, h2]
      rfl
  refine ⟨hev, ?_, ?_⟩
  · intro q hq
    rw [hev] at hq
    simp at hq
  · intro m b hq
    rw [hev] at hq
    simp at hq

theorem routing_fallback_chat_witness :
    handle_conversation_events (fun _ => "weather-question") (fun _ => [])
        (some ⟨"m-chat", "m-vis", false, "m-tts", "m-voice", true, false⟩) "hi"
      = [Event.routerConsulted "hi", Event.chatInvoked (some "m-chat")] :=
  (routing_fallback_chat (fun _ => "weather-question") (fun _ => [])
    ⟨"m-chat", "m-vis", false, "m-tts", "m-voice", true, false⟩ "hi" rfl
    (Or.inl ⟨by decide, by decide⟩)).1

/-- Claim C5 counterexample: a successful image-generation call whose
revised prompt is the empty string appends no assistant entry at all, so
the history does not gain an entry on every success. -/
theorem image_gen_empty_revised_prompt_no_entry :
    (handle_trigger_async_image_gen [seed_system_message]
        (Except.ok ⟨"http://img", ""⟩)).history = [seed_system_message] := by
  decide

/-- Claim C5 (amended): a query classified as IMAGE_GENERATION dispatches
to the image generation handler and the chat completion handler is not
invoked for that turn; on success of the image-generation service with a
non-empty revised prompt, the (non-empty, post-initialization) stored
history gains exactly one assistant entry equal to the revised prompt. -/
theorem image_gen_route_behaviour (routeOf : String → String)
    (urlsOf : String → List String) (settings : ChatSettings) (query : String)
    (hist : List Message) (data : ImageGenData)
    (hdyn : settings.use_dynamic_conversation_routing = true)
    (hroute : routeOf query = SemanticRouterType.IMAGE_GENERATION)
    (hne : hist ≠ []) (hprompt : data.revised_prompt ≠ "") :
    handle_conversation_events routeOf urlsOf (some settings) query
      = [Event.routerConsulted query, Event.imageGenInvoked query] ∧
    (∀ m, Event.chatInvoked m ∉
        handle_conversation_events routeOf urlsOf (some settings) query) ∧
    (handle_trigger_async_image_gen hist (Except.ok data)).history
      = hist ++ [⟨"assistant", data.revised_prompt⟩] := by
  have hev : handle_conversation_events routeOf urlsOf (some settings) query
      = [Event.routerConsulted query, Event.imageGenInvoked query] := by
    unfold handle_conversation_events routingEvents
    rw [if_pos (by simp [get_settings_dynamic_routing, optTruthy, hdyn]),
      if_pos hroute]
  refine ⟨hev, ?_, ?_⟩
  · intro m hm
    rw [hev] at hm
    simp at hm
  · show update_assistant_messages_history_with_context hist data.revised_prompt
      = hist ++ [⟨"assistant", data.revised_prompt⟩]
    unfold update_assistant_messages_history_with_context
      update_messages_history_with_context
    rw [if_neg, if_neg]
    · cases hist with
      | nil => exact absurd rfl hne
      | cons a l => simp
    · intro hcon
      rcases hcon with h | h
      · simp [String.length] at h
      · exact hprompt ((string_length_eq_zero_iff _).mp h)

theorem image_gen_route_behaviour_witness :
    handle_conversation_events (fun _ => SemanticRouterType.IMAGE_GENERATION)
        (fun _ => [])
        (some ⟨"m-chat", "m-vis", false, "m-tts", "m-voice", true, false⟩)
        "draw a cat"
      = [Event.routerConsulted "draw a cat",
         Event.imageGenInvoked "draw a cat"] ∧
    (handle_trigger_async_image_gen [seed_system_message]
        (Except.ok ⟨"http://u", "a cat"⟩)).history
      = [seed_system_message] ++ [⟨"assistant", "a cat"⟩] := by
  have h := image_gen_route_behaviour
    (fun _ => SemanticRouterType.IMAGE_GENERATION) (fun _ => [])
    ⟨"m-chat", "m-vis", false, "m-tts", "m-voice", true, false⟩ "draw a cat"
    [seed_system_message] ⟨"http://u", "a cat"⟩ rfl rfl (by decide) (by decide)
  exact ⟨h.1, h.2.2⟩

/-- Claim C6: when the resolved vision model reports no image-input
capability, the vision handler sends the capability-mismatch notice as its
only output and returns with the history unchanged, making no call to the
vision completion service. -/
theorem vision_capability_mismatch_noop (hist : List Message)
    (settings : Option ChatSettings) (supports : Option String → Bool)
    (serviceResult : Except ExcInfo String) (input_image prompt : String)
    (is_local : Bool)
    (hsup : supports (resolve_vision_model settings is_local) = false) :
    handle_vision hist settings supports serviceResult input_image prompt
        is_local
      = Except.ok ⟨hist,
          [visionUnsupportedNotice (resolve_vision_model settings is_local)],
          false, none⟩ := by
  simp [handle_vision, hsup]

theorem vision_capability_mismatch_noop_witness :
    handle_vision [seed_system_message] none (fun _ => false)
        (Except.ok "a cat") "http://example.com/cat.png" "describe" false
      = Except.ok ⟨[seed_system_message],
          [visionUnsupportedNotice (resolve_vision_model none false)],
          false, none⟩ :=
  vision_capability_mismatch_noop [seed_system_message] none (fun _ => false)
    (Except.ok "a cat") "http://example.com/cat.png" "describe" false rfl

/-- Claim C7: when the enable-TTS setting is stored as False or the
requested text is empty, the TTS handler is a no-op: no speech-synthesis
call is made, no audio artifact is produced, nothing is sent and the
stored history is unchanged. -/
theorem tts_disabled_or_empty_noop (hist : List Message)
    (settings : Option ChatSettings) (context : String)
    (h : get_settings_enable_tts settings = some false ∨ context = "") :
    handle_tts_response hist settings context = ⟨hist, false, []⟩ := by
  unfold handle_tts_response
  rcases h with h | h
  · rw [if_pos h]
  · by_cases h1 : get_settings_enable_tts settings = some false
    · rw [if_pos h1]
    · rw [if_neg h1, if_pos (by simp [h])]

theorem tts_disabled_or_empty_noop_witness :
    handle_tts_response [seed_system_message]
        (some ⟨"m-chat", "m-vis", false, "m-tts", "m-voice", false, false⟩)
        "speak this"
      = ⟨[seed_system_message], false, []⟩ :=
  tts_disabled_or_empty_noop [seed_system_message]
    (some ⟨"m-chat", "m-vis", false, "m-tts", "m-voice", false, false⟩)
    "speak this" (Or.inl rfl)

/-- Claim C8: an inbound message carrying an image-type attachment invokes
the vision handler directly with the hardcoded default vision model, for
any value of the settings (including the dynamic-routing switch), and the
intent router is never consulted for that attachment. -/
theorem image_attachment_bypasses_router (readFile : String → String)
    (routeOf : String → String) (urlsOf : String → List String)
    (settings : Option ChatSettings) (f : Attachment) (content : String)
    (himg : strContains f.mime "image" = true) :
    on_message_events readFile routeOf urlsOf settings [f] content
      = [Event.visionInvoked (some DEFAULT_VISION_MODEL) true] ∧
    (∀ q, Event.routerConsulted q ∉
        on_message_events readFile routeOf urlsOf settings [f] content) ∧
    resolve_vision_model settings true = some DEFAULT_VISION_MODEL := by
  have hev : on_message_events readFile routeOf urlsOf settings [f] content
      = [Event.visionInvoked (some DEFAULT_VISION_MODEL) true] := by
    simp [on_message_events, handle_files_attachment_events, handle_file_events,
      himg]
  refine ⟨hev, ?_, by simp [resolve_vision_model]⟩
  intro q hq
  rw [hev] at hq
  simp at hq

theorem image_attachment_bypasses_router_witness :
    on_message_events (fun _ => "") (fun _ => "anything") (fun _ => [])
        (some ⟨"m-chat", "m-vis", false, "m-tts", "m-voice", true, true⟩)
        [⟨"/tmp/cat.png", "image/png"⟩] "look at this"
      = [Event.visionInvoked (some DEFAULT_VISION_MODEL) true] :=
  (image_attachment_bypasses_router (fun _ => "") (fun _ => "anything")
    (fun _ => [])
    (some ⟨"m-chat", "m-vis", false, "m-tts", "m-voice", true, true⟩)
    ⟨"/tmp/cat.png", "image/png"⟩ "look at this" (by decide)).1

/-- Claim C9: the trimming pass applied before the completion request never
removes the leading system message and never yields an empty message
sequence. -/
theorem trim_preserves_leading_system (cost : Message → Nat) (budget : Nat)
    (sys : Message) (rest : List Message) (hrole : sys.role = "system") :
    (trim_messages cost budget (sys :: rest)).head? = some sys ∧
      trim_messages cost budget (sys :: rest) ≠ [] := by
  simp [trim_messages, hrole]

theorem trim_preserves_leading_system_witness :
    (trim_messages (fun m => m.content.length) 10
        [⟨"system", "sys"⟩, ⟨"user", "aaaaaaaaaaaa"⟩,
         ⟨"assistant", "bb"⟩]).head? = some ⟨"system", "sys"⟩ ∧
      trim_messages (fun m => m.content.length) 10
        [⟨"system", "sys"⟩, ⟨"user", "aaaaaaaaaaaa"⟩, ⟨"assistant", "bb"⟩]
        ≠ [] :=
  trim_preserves_leading_system (fun m => m.content.length) 10
    ⟨"system", "sys"⟩ [⟨"user", "aaaaaaaaaaaa"⟩, ⟨"assistant", "bb"⟩] rfl

/-- Claim C10: the stored history is append-only — every operation maps the
stored history to a list it is a prefix of, so no entry is removed,
reordered or modified in place — while enabling trimming only condenses
the message list sent to the completion service for that request (a
sublist of the stored history) and never shrinks the stored history. -/
theorem history_append_only (st : SessionState) (op : Operation)
    (cost : Message → Nat) (budget : Nat) (settings : Option ChatSettings)
    (hist : List Message) :
    st.message_history <+: (applyOp st op).message_history ∧
      List.Sublist (routed_chat_messages_sent cost budget settings hist)
        hist := by
  refine ⟨applyOp_history_extends st op, ?_⟩
  unfold routed_chat_messages_sent
  cases hb : optTruthy (get_settings_trimmed settings) with
  | true => simpa using trim_messages_sublist cost budget hist
  | false => simp

end VTai
